import Mathlib

/-!
Verification of the client-side audio pipeline of the music-react repository
(`src/main.jsx`). The pipeline decodes an audio file at 22050 Hz, extracts the
middle 10 seconds, downmixes to mono, encodes the result as a 16-bit PCM WAV
byte buffer and posts it to a remote classifier whose JSON answer is shown to
the user.

Shallow embedding conventions:
* float samples, times and durations are modelled as exact rationals `ℚ`;
* JS `array[i] || 0` reads are modelled as `List.getD _ i 0`;
* `DataView` byte writes are modelled as little-endian byte lists (`List ℕ`);
* `DataView.setInt16` conversion (truncate toward zero, wrap mod 2^16) is
  modelled explicitly;
* the asynchronous control flow of `handleAnalyze` is modelled as a pure
  function of the outcomes of its effectful steps (decode, fetch, json).
-/

namespace MusicReact

/-- A decoded Web-Audio buffer: channel count, frame count, sample rate and
the per-channel sample data (source: the `audioBuffer` object used by
`processAudio` in `src/main.jsx`). -/
structure AudioBuffer where
  numberOfChannels : Nat
  length : Nat
  sampleRate : Nat
  channels : List (List ℚ)
deriving Repr

/-- `audioBuffer.getChannelData(c)`: the sample list of channel `c`. -/
def getChannelData (buf : AudioBuffer) (c : Nat) : List ℚ :=
  buf.channels.getD c []

/-- `audioBuffer.duration = length / sampleRate` (Web Audio semantics). -/
def duration (buf : AudioBuffer) : ℚ :=
  (buf.length : ℚ) / (buf.sampleRate : ℚ)

/-- `const startTime = Math.max(0, (duration - 10) / 2);` (main.jsx line 62). -/
def startTime (d : ℚ) : ℚ := max 0 ((d - 10) / 2)

/-- `const endTime = Math.min(duration, startTime + 10);` (main.jsx line 63). -/
def endTime (d : ℚ) : ℚ := min d (startTime d + 10)

/-- `const segmentLength = Math.floor((endTime - startTime) * 22050);`
(main.jsx line 64); nonnegative, so we return a `Nat`. -/
def segmentLength (d : ℚ) : Nat :=
  (Int.floor ((endTime d - startTime d) * 22050)).toNat

/-- `const startSample = Math.floor(startTime * 22050);` (main.jsx line 65). -/
def startSample (d : ℚ) : Nat :=
  (Int.floor (startTime d * 22050)).toNat

/-- A JS read `xs[i] || 0`: the element when the index is in range, `0`
otherwise (an out-of-range read yields `undefined`, and `undefined || 0` is
`0`; a stored `0` is likewise mapped to `0`). -/
def readS (xs : List ℚ) (i : Nat) : ℚ := xs.getD i 0

/-- The mono window-extraction / downmix loop of `processAudio`
(main.jsx lines 71-84): if the decoded buffer has exactly one channel the
windowed samples are copied (`inputData[startSample + i] || 0`); otherwise
channels 0 and 1 are averaged sample-by-sample
(`((leftChannel[idx] || 0) + (rightChannel[idx] || 0)) / 2`). -/
def downmix (buf : AudioBuffer) : List ℚ :=
  if buf.numberOfChannels = 1 then
    (List.range (segmentLength (duration buf))).map
      (fun i => readS (getChannelData buf 0) (startSample (duration buf) + i))
  else
    (List.range (segmentLength (duration buf))).map
      (fun i =>
        (readS (getChannelData buf 0) (startSample (duration buf) + i) +
         readS (getChannelData buf 1) (startSample (duration buf) + i)) / 2)

/-- `Math.max(-1, Math.min(1, samples[i]))` (main.jsx line 133). -/
def clamp (x : ℚ) : ℚ := max (-1) (min 1 x)

/-- Truncation toward zero, as performed by the `ToInt16` conversion inside
`DataView.setInt16` on a float argument. -/
def rtrunc (x : ℚ) : ℤ := if 0 ≤ x then Int.floor x else Int.ceil x

/-- The 16-bit value computed for one sample:
`sample * 0x7FFF` after clamping, truncated to an integer
(main.jsx lines 133-134). -/
def quantize (x : ℚ) : ℤ := rtrunc (clamp x * 32767)

/-- Twos-complement wrap of an integer into `[0, 65536)`, as `setInt16`
stores it. -/
def toU16 (v : ℤ) : Nat := (v % 65536).toNat

/-- Little-endian bytes of a 16-bit unsigned write (`setUint16 _ n true`). -/
def u16le (n : Nat) : List Nat := [n % 256, n / 256 % 256]

/-- Little-endian bytes of a 32-bit unsigned write (`setUint32 _ n true`). -/
def u32le (n : Nat) : List Nat :=
  [n % 256, n / 256 % 256, n / 65536 % 256, n / 16777216 % 256]

/-- Little-endian bytes of a 16-bit signed write (`setInt16 _ v true`). -/
def i16le (v : ℤ) : List Nat := u16le (toU16 v)

/-- The `writeString` helper of `audioBufferToWav` (main.jsx lines 108-112):
one byte per character, holding the character code. -/
def writeStringBytes (s : String) : List Nat :=
  s.toList.map Char.toNat

/-- `audioBufferToWav` (main.jsx lines 100-139): serializes the first channel
of a buffer into a 44-byte RIFF/WAVE header followed by 16-bit little-endian
PCM samples. The writes at offsets 0,4,8,12,16,20,22,24,28,32,34,36,40,44…
are contiguous, so the buffer is the concatenation of the written fields. -/
def audioBufferToWav (channels sampleRate : Nat) (samples : List ℚ) : List Nat :=
  writeStringBytes "RIFF" ++
  u32le (36 + samples.length * 2) ++
  writeStringBytes "WAVE" ++
  writeStringBytes "fmt " ++
  u32le 16 ++
  u16le 1 ++
  u16le channels ++
  u32le sampleRate ++
  u32le (sampleRate * channels * 2) ++
  u16le (channels * 2) ++
  u16le 16 ++
  writeStringBytes "data" ++
  u32le (samples.length * 2) ++
  samples.flatMap (fun s => i16le (quantize s))

/-- Byte read with default 0 (reads beyond the buffer never happen in the
theorems below; the default only makes the function total). -/
def byteAt (bs : List Nat) (i : Nat) : Nat := bs.getD i 0

/-- Little-endian 16-bit unsigned read at a byte offset. -/
def getU16le (bs : List Nat) (off : Nat) : Nat :=
  byteAt bs off + 256 * byteAt bs (off + 1)

/-- Little-endian 32-bit unsigned read at a byte offset. -/
def getU32le (bs : List Nat) (off : Nat) : Nat :=
  byteAt bs off + 256 * byteAt bs (off + 1) +
  65536 * byteAt bs (off + 2) + 16777216 * byteAt bs (off + 3)

/-- Little-endian 16-bit signed read at a byte offset. -/
def getI16le (bs : List Nat) (off : Nat) : ℤ :=
  if getU16le bs off < 32768 then (getU16le bs off : ℤ)
  else (getU16le bs off : ℤ) - 65536

/-- Why the platform decode step can fail: the bytes are not parseable as
audio at all, or they decode to a channel/format combination the pipeline
cannot handle. The JS code never inspects which of the two occurred. -/
inductive DecodeFailure where
  | notParseable
  | unsupportedFormat
deriving Repr, DecidableEq

/-- Outcome of `audioContext.decodeAudioData` on the uploaded file: either a
decoded buffer or a failure of one of the two kinds. -/
inductive DecodeOutcome where
  | decoded (buf : AudioBuffer)
  | failed (k : DecodeFailure)
deriving Repr

/-- `processAudio` (main.jsx lines 54-94) as a function of the decode
outcome: on success it builds the mono 22050 Hz segment buffer and encodes
it with `audioBufferToWav`; any error inside the `try` block is caught and
re-thrown as the single generic error `Failed to process audio file`. -/
def processAudio (dec : DecodeOutcome) : Except String (List Nat) :=
  match dec with
  | .failed _ => .error "Failed to process audio file"
  | .decoded buf => .ok (audioBufferToWav 1 22050 (downmix buf))

/-- The JSON response body of the classifier, with fields `prediction` and
`score` (score modelled as an exact rational). -/
structure ClassifierResult where
  prediction : String
  score : ℚ
deriving Repr, DecidableEq

/-- JS `String.prototype.toLowerCase()` on the label strings involved (all
ASCII): lower-case each character. -/
def toLowerCase (s : String) : String :=
  String.mk (s.data.map Char.toLower)

/-- The banger test of `displayResults` (main.jsx line 189):
lower-cased prediction equal to `bangers`, or score above 0.5. -/
def isBanger (r : ClassifierResult) : Bool :=
  toLowerCase r.prediction == "bangers" || decide (r.score > 0.5)

/-- Case-insensitive string equality, how the spec reads
"`prediction` case-insensitively equals a positive label". -/
def caseInsensitiveEq (a b : String) : Prop :=
  toLowerCase a = toLowerCase b

/-- `response.ok`: status in the 2xx range. -/
def statusOk (status : Nat) : Bool :=
  200 ≤ status && status ≤ 299

/-- An HTTP response as `handleAnalyze` consumes it: its status code and the
outcome of `response.json()` (which fails on a malformed body). -/
structure HttpResponse where
  status : Nat
  json : Except String ClassifierResult

/-- What the user ends up seeing after `handleAnalyze`: nothing (early
return), a full classification via `displayResults`, or an `alert`ed error
message. -/
inductive Outcome where
  | noAction
  | showResult (r : ClassifierResult)
  | showError (msg : String)
deriving Repr, DecidableEq

/-- Observable result of one `handleAnalyze` invocation: what was shown, the
final `isProcessing` state, and how many `fetch` / `processAudio` calls were
made. -/
structure AnalyzeResult where
  outcome : Outcome
  isProcessing : Bool
  fetchCount : Nat
  processCount : Nat
deriving Repr, DecidableEq

/-- The message built by the `catch` block of `handleAnalyze`
(main.jsx lines 178-181). -/
def analysisErrorMsg (m : String) : String :=
  "Error analyzing audio: " ++ m ++
  "\n\nMake sure the Flask API is running at https://music-flask-api.onrender.com/"

/-- `handleAnalyze` (main.jsx lines 145-183) as a pure function of the file
presence, the initial `isProcessing` state and the outcomes of its effectful
steps. `if (!file) return;` precedes `setIsProcessing(true)`; any thrown
error (processAudio failure, network failure, non-2xx status, malformed
JSON) lands in the `catch` block, which sets `isProcessing` to `false` and
alerts the error message; on success `displayResults` is called exactly
once, and `fetch` is called at most once in every path. -/
def handleAnalyze (file : Option Unit) (isProcessing0 : Bool)
    (dec : DecodeOutcome) (fetchResult : Except String HttpResponse) :
    AnalyzeResult :=
  match file with
  | none => ⟨.noAction, isProcessing0, 0, 0⟩
  | some _ =>
    match processAudio dec with
    | .error e => ⟨.showError (analysisErrorMsg e), false, 0, 1⟩
    | .ok _ =>
      match fetchResult with
      | .error e => ⟨.showError (analysisErrorMsg e), false, 1, 1⟩
      | .ok resp =>
        if statusOk resp.status then
          match resp.json with
          | .error e => ⟨.showError (analysisErrorMsg e), false, 1, 1⟩
          | .ok result => ⟨.showResult result, false, 1, 1⟩
        else
          ⟨.showError (analysisErrorMsg
            ("API request failed with status: " ++ toString resp.status)),
           false, 1, 1⟩

/-! ## Helper lemmas -/

/-- Floors of rationals that are (provably) integers. -/
lemma floor_q (z : ℤ) (q : ℚ) (h : q = (z : ℚ)) : Int.floor q = z := by
  rw [h, Int.floor_intCast]

/-- Ceilings of rationals that are (provably) integers. -/
lemma ceil_q (z : ℤ) (q : ℚ) (h : q = (z : ℚ)) : Int.ceil q = z := by
  rw [h, Int.ceil_intCast]

lemma startTime_of_ge {d : ℚ} (h : 10 ≤ d) : startTime d = (d - 10) / 2 := by
  rw [startTime, max_eq_right (by linarith)]

lemma endTime_of_ge {d : ℚ} (h : 10 ≤ d) : endTime d = (d + 10) / 2 := by
  rw [endTime, startTime_of_ge h, min_eq_right (by linarith)]
  ring

lemma startTime_of_le {d : ℚ} (h : d ≤ 10) : startTime d = 0 := by
  rw [startTime, max_eq_left (by linarith)]

lemma endTime_of_le {d : ℚ} (h : d ≤ 10) : endTime d = d := by
  rw [endTime, startTime_of_le h, min_eq_left (by linarith)]

lemma segmentLength_of_ge {d : ℚ} (h : 10 ≤ d) : segmentLength d = 220500 := by
  rw [segmentLength,
    floor_q 220500 _ (by rw [startTime_of_ge h, endTime_of_ge h]; push_cast; ring)]
  omega

/-- The downmix loop always produces exactly `segmentLength` samples. -/
lemma downmix_length (buf : AudioBuffer) :
    (downmix buf).length = segmentLength (duration buf) := by
  rw [downmix]
  split <;> simp

/-- Indexing into a mapped range. -/
lemma getD_map_range (f : ℕ → ℚ) {n i : ℕ} (h : i < n) :
    ((List.range n).map f).getD i 0 = f i := by
  simp [List.getD_eq_getElem?_getD, List.getElem?_map, List.getElem?_range, h]

/-- An in-range `xs[i] || 0` read yields the stored sample. -/
lemma readS_of_lt {xs : List ℚ} {i : ℕ} (h : i < xs.length) :
    readS xs i = xs[i] := by
  simp [readS, List.getD_eq_getElem?_getD, List.getElem?_eq_getElem h]

/-- An out-of-range `xs[i] || 0` read yields `0`. -/
lemma readS_of_ge {xs : List ℚ} {i : ℕ} (h : xs.length ≤ i) :
    readS xs i = 0 := by
  rw [readS, List.getD_eq_getElem?_getD, List.getElem?_eq_none h]
  rfl

/-! ## Claims -/

/-- Claim C6: the extraction window is computed as
`start = max(0, (duration - 10) / 2)` and `end = min(duration, start + 10)`;
this centering gives `start + end = duration` whenever `duration ≥ 10`, and
for `duration < 10` it yields `start = 0` and `end = duration`. -/
theorem claim_C6 (d : ℚ) :
    startTime d = max 0 ((d - 10) / 2) ∧
    endTime d = min d (startTime d + 10) ∧
    (10 ≤ d → startTime d + endTime d = d) ∧
    (d < 10 → startTime d = 0 ∧ endTime d = d) := by
  refine ⟨rfl, rfl, fun h => ?_, fun h => ⟨startTime_of_le h.le, endTime_of_le h.le⟩⟩
  rw [startTime_of_ge h, endTime_of_ge h]
  ring

/-- Witness for C6 at the concrete duration 30: the hypothesis `10 ≤ 30`
holds and the window is centered. -/
theorem claim_C6_witness :
    (10 ≤ (30 : ℚ)) ∧ startTime 30 + endTime 30 = 30 :=
  ⟨by norm_num, (claim_C6 30).2.2.1 (by norm_num)⟩

/-- Claim C1: for a decoded buffer (decoded at 22050 Hz, as `processAudio`
decodes) of duration ≥ 10 s the normalized output has exactly
`22050 × 10 = 220500` samples (the rational model is exact, hence within one
sample of the float computation); for duration < 10 s it has
`floor(duration × 22050)` samples — which is the whole input length — and
starts at sample 0, covering the entire input. -/
theorem claim_C1 (buf : AudioBuffer) (hrate : buf.sampleRate = 22050) :
    (10 ≤ duration buf → (downmix buf).length = 220500) ∧
    (duration buf < 10 →
      (downmix buf).length = (Int.floor (duration buf * 22050)).toNat ∧
      (downmix buf).length = buf.length ∧
      startSample (duration buf) = 0) := by
  constructor
  · intro h
    rw [downmix_length, segmentLength_of_ge h]
  · intro h
    have hd : duration buf = (buf.length : ℚ) / 22050 := by
      rw [duration, hrate]
      norm_num
    have hfloor : Int.floor (duration buf * 22050) = (buf.length : ℤ) := by
      refine floor_q _ _ ?_
      rw [hd]
      push_cast
      ring
    refine ⟨?_, ?_, ?_⟩
    · rw [downmix_length, segmentLength, startTime_of_le h.le, endTime_of_le h.le,
        sub_zero]
    · rw [downmix_length, segmentLength, startTime_of_le h.le, endTime_of_le h.le,
        sub_zero, hfloor]
      omega
    · rw [startSample, startTime_of_le h.le]
      norm_num

/-- Witness for C1: a 220500-frame buffer at 22050 Hz has duration exactly
10 s and its normalized output has 220500 samples; a 3-frame buffer has
duration < 10 s and the output covers all 3 input samples from sample 0. -/
theorem claim_C1_witness :
    ((AudioBuffer.mk 1 220500 22050 [[]]).sampleRate = 22050 ∧
      10 ≤ duration (AudioBuffer.mk 1 220500 22050 [[]]) ∧
      (downmix (AudioBuffer.mk 1 220500 22050 [[]])).length = 220500) ∧
    ((AudioBuffer.mk 1 3 22050 [[]]).sampleRate = 22050 ∧
      duration (AudioBuffer.mk 1 3 22050 [[]]) < 10 ∧
      (downmix (AudioBuffer.mk 1 3 22050 [[]])).length = 3 ∧
      startSample (duration (AudioBuffer.mk 1 3 22050 [[]])) = 0) :=
  ⟨⟨rfl, by norm_num [duration],
      (claim_C1 (AudioBuffer.mk 1 220500 22050 [[]]) rfl).1 (by norm_num [duration])⟩,
   ⟨rfl, by norm_num [duration],
      ((claim_C1 (AudioBuffer.mk 1 3 22050 [[]]) rfl).2 (by norm_num [duration])).2.1,
      ((claim_C1 (AudioBuffer.mk 1 3 22050 [[]]) rfl).2 (by norm_num [duration])).2.2⟩⟩

/-- Claim C5: with two or more channels, output sample `i` is the average
`(left[startSample+i] + right[startSample+i]) / 2` of channels 0 and 1 with
out-of-range reads as 0 (channels beyond the first two never enter the
formula, hence are ignored); a mono source is copied directly with the same
zero-fill; and a two-channel input that is constantly `1` on the left and
`-1` on the right downmixes to exactly `0` at every sample. -/
theorem claim_C5 (buf : AudioBuffer) (h2 : 2 ≤ buf.numberOfChannels) :
    (∀ i, i < (downmix buf).length →
      (downmix buf).getD i 0 =
        (readS (getChannelData buf 0) (startSample (duration buf) + i) +
         readS (getChannelData buf 1) (startSample (duration buf) + i)) / 2) ∧
    ((∀ x ∈ getChannelData buf 0, x = 1) →
     (∀ x ∈ getChannelData buf 1, x = -1) →
     (getChannelData buf 0).length = (getChannelData buf 1).length →
     ∀ y ∈ downmix buf, y = 0) ∧
    (∀ b : AudioBuffer, b.numberOfChannels = 1 →
      ∀ i, i < (downmix b).length →
        (downmix b).getD i 0 =
          readS (getChannelData b 0) (startSample (duration b) + i)) := by
  have hne : ¬ buf.numberOfChannels = 1 := by omega
  have hstereo : downmix buf =
      (List.range (segmentLength (duration buf))).map
        (fun i =>
          (readS (getChannelData buf 0) (startSample (duration buf) + i) +
           readS (getChannelData buf 1) (startSample (duration buf) + i)) / 2) := by
    rw [downmix, if_neg hne]
  refine ⟨?_, ?_, ?_⟩
  · intro i hi
    rw [hstereo] at hi ⊢
    simp only [List.length_map, List.length_range] at hi
    exact getD_map_range _ hi
  · intro hL hR hlen y hy
    rw [hstereo] at hy
    obtain ⟨i, _, rfl⟩ := List.mem_map.mp hy
    by_cases hin : startSample (duration buf) + i < (getChannelData buf 0).length
    · rw [readS_of_lt hin, readS_of_lt (hlen ▸ hin)]
      rw [hL _ (List.getElem_mem _), hR _ (List.getElem_mem _)]
      norm_num
    · have hge : (getChannelData buf 0).length ≤ startSample (duration buf) + i := by
        omega
      rw [readS_of_ge hge, readS_of_ge (hlen ▸ hge)]
      norm_num

  · intro b hb i hi
    have hmono : downmix b =
        (List.range (segmentLength (duration b))).map
          (fun i => readS (getChannelData b 0) (startSample (duration b) + i)) := by
      rw [downmix, if_pos hb]
    rw [hmono] at hi ⊢
    simp only [List.length_map, List.length_range] at hi
    exact getD_map_range _ hi

/-- A concrete 3-frame stereo buffer, constantly 1 on the left channel and
-1 on the right. -/
def stereoExample : AudioBuffer :=
  AudioBuffer.mk 2 3 22050 [[1, 1, 1], [-1, -1, -1]]

lemma stereoExample_d_le : duration stereoExample ≤ 10 := by
  norm_num [duration, stereoExample]

lemma stereoExample_downmix_length : (downmix stereoExample).length = 3 := by
  rw [downmix_length, segmentLength, startTime_of_le stereoExample_d_le,
    endTime_of_le stereoExample_d_le, sub_zero,
    floor_q 3 _ (by norm_num [duration, stereoExample])]
  rfl

/-- Witness for C5 at the concrete stereo buffer: the channel-count
hypothesis holds and sample 0 of the downmix is the stated average. -/
theorem claim_C5_witness :
    2 ≤ stereoExample.numberOfChannels ∧
    0 < (downmix stereoExample).length ∧
    (downmix stereoExample).getD 0 0 =
      (readS (getChannelData stereoExample 0) (startSample (duration stereoExample) + 0) +
       readS (getChannelData stereoExample 1) (startSample (duration stereoExample) + 0)) / 2 :=
  ⟨by norm_num [stereoExample],
   by rw [stereoExample_downmix_length]; norm_num,
   (claim_C5 stereoExample (by norm_num [stereoExample])).1 0
     (by rw [stereoExample_downmix_length]; norm_num)⟩

/-- Claim C2: a response is classified as a banger iff its prediction
case-insensitively equals the positive label "bangers" OR its score is
strictly greater than 0.5; in particular
`{prediction: "not_bangers", score: 0.9}` is classified as a banger. -/
theorem claim_C2 :
    (∀ r : ClassifierResult,
      isBanger r = true ↔
        (caseInsensitiveEq r.prediction "bangers" ∨ r.score > 0.5)) ∧
    isBanger (ClassifierResult.mk "not_bangers" 0.9) = true := by
  constructor
  · intro r
    rw [isBanger, caseInsensitiveEq]
    rw [show toLowerCase "bangers" = "bangers" from by decide]
    simp
  · rw [isBanger]
    simp only [Bool.or_eq_true, beq_iff_eq, decide_eq_true_eq]
    right
    norm_num

/-- Each sample contributes exactly two PCM bytes. -/
lemma payload_length (samples : List ℚ) :
    (samples.flatMap fun s => i16le (quantize s)).length = 2 * samples.length := by
  induction samples with
  | nil => rfl
  | cons a l ih =>
    rw [List.flatMap_cons, List.length_append, ih,
      show (i16le (quantize a)).length = 2 from rfl, List.length_cons]
    omega

/-- The WAV buffer is 44 header bytes plus two bytes per sample. -/
lemma wav_length (channels rate : ℕ) (samples : List ℚ) :
    (audioBufferToWav channels rate samples).length = 44 + 2 * samples.length := by
  rw [audioBufferToWav,
    show writeStringBytes "RIFF" = [82, 73, 70, 70] from rfl,
    show writeStringBytes "WAVE" = [87, 65, 86, 69] from rfl,
    show writeStringBytes "fmt " = [102, 109, 116, 32] from rfl,
    show writeStringBytes "data" = [100, 97, 116, 97] from rfl]
  simp only [List.length_append, u32le, u16le, List.length_cons, List.length_nil,
    payload_length]

lemma byteAt_succ (x : ℕ) (l : List ℕ) (i : ℕ) :
    byteAt (x :: l) (i + 1) = byteAt l i := rfl

lemma byteAt_zero (x : ℕ) (l : List ℕ) : byteAt (x :: l) 0 = x := rfl

/-- The byte buffer written by `audioBufferToWav` for a mono buffer, with
the contiguous `DataView` writes spelled out byte by byte. -/
lemma wav_bytes (rate : ℕ) (samples : List ℚ) :
    audioBufferToWav 1 rate samples =
      82 :: 73 :: 70 :: 70 ::
      ((36 + samples.length * 2) % 256) ::
      ((36 + samples.length * 2) / 256 % 256) ::
      ((36 + samples.length * 2) / 65536 % 256) ::
      ((36 + samples.length * 2) / 16777216 % 256) ::
      87 :: 65 :: 86 :: 69 ::
      102 :: 109 :: 116 :: 32 ::
      16 :: 0 :: 0 :: 0 ::
      1 :: 0 ::
      1 :: 0 ::
      (rate % 256) :: (rate / 256 % 256) ::
      (rate / 65536 % 256) :: (rate / 16777216 % 256) ::
      (rate * 1 * 2 % 256) :: (rate * 1 * 2 / 256 % 256) ::
      (rate * 1 * 2 / 65536 % 256) :: (rate * 1 * 2 / 16777216 % 256) ::
      2 :: 0 ::
      16 :: 0 ::
      100 :: 97 :: 116 :: 97 ::
      (samples.length * 2 % 256) :: (samples.length * 2 / 256 % 256) ::
      (samples.length * 2 / 65536 % 256) :: (samples.length * 2 / 16777216 % 256) ::
      samples.flatMap (fun s => i16le (quantize s)) := rfl

/-- Claim C3: for every mono sample array the WAV buffer is exactly
`44 + 2n` bytes; the ASCII literals RIFF/WAVE/"fmt "/data sit at offsets
0/8/12/36; ChunkSize (offset 4) is `36 + 2n`, SubchunkSize is 16,
AudioFormat is 1 (PCM), NumChannels is 1, SampleRate is as given, ByteRate
is `sampleRate × 2`, BlockAlign is 2, BitsPerSample is 16 and DataSize
(offset 40) is `2n` — the declared sizes match the payload length exactly.
The size hypotheses keep the 32-bit header fields from wrapping (any real
input satisfies them; the witness instantiates the very
220500-sample, 22050 Hz case). -/
theorem claim_C3 (sampleRate : ℕ) (samples : List ℚ)
    (hn : 36 + samples.length * 2 < 4294967296)
    (hr : sampleRate * 2 < 4294967296) :
    (audioBufferToWav 1 sampleRate samples).length = 44 + 2 * samples.length ∧
    (audioBufferToWav 1 sampleRate samples).take 4 = [82, 73, 70, 70] ∧
    ((audioBufferToWav 1 sampleRate samples).drop 8).take 4 = [87, 65, 86, 69] ∧
    ((audioBufferToWav 1 sampleRate samples).drop 12).take 4 = [102, 109, 116, 32] ∧
    ((audioBufferToWav 1 sampleRate samples).drop 36).take 4 = [100, 97, 116, 97] ∧
    getU32le (audioBufferToWav 1 sampleRate samples) 4 = 36 + 2 * samples.length ∧
    getU32le (audioBufferToWav 1 sampleRate samples) 16 = 16 ∧
    getU16le (audioBufferToWav 1 sampleRate samples) 20 = 1 ∧
    getU16le (audioBufferToWav 1 sampleRate samples) 22 = 1 ∧
    getU32le (audioBufferToWav 1 sampleRate samples) 24 = sampleRate ∧
    getU32le (audioBufferToWav 1 sampleRate samples) 28 = sampleRate * 2 ∧
    getU16le (audioBufferToWav 1 sampleRate samples) 32 = 2 ∧
    getU16le (audioBufferToWav 1 sampleRate samples) 34 = 16 ∧
    getU32le (audioBufferToWav 1 sampleRate samples) 40 = 2 * samples.length := by
  refine ⟨wav_length 1 sampleRate samples, ?_, ?_, ?_, ?_, ?_, ?_, ?_, ?_, ?_, ?_,
    ?_, ?_, ?_⟩ <;>
    rw [wav_bytes] <;>
    simp only [getU32le, getU16le, byteAt_succ, byteAt_zero, List.take, List.drop] <;>
    omega

/-- Witness for C3: the concrete instance named in the claim, a 220500-sample mono
encode at 22050 Hz, where DataSize is 441000 and ChunkSize is 441036. -/
theorem claim_C3_witness :
    36 + (List.replicate 220500 (0 : ℚ)).length * 2 < 4294967296 ∧
    getU32le (audioBufferToWav 1 22050 (List.replicate 220500 (0 : ℚ))) 40 = 441000 ∧
    getU32le (audioBufferToWav 1 22050 (List.replicate 220500 (0 : ℚ))) 4 = 441036 := by
  have hlen : (List.replicate 220500 (0 : ℚ)).length = 220500 :=
    List.length_replicate 220500 0
  have h40 := (claim_C3 22050 (List.replicate 220500 (0 : ℚ))
    (by rw [hlen]; norm_num) (by norm_num)).2.2.2.2.2.2.2.2.2.2.2.2.2
  have h4 := (claim_C3 22050 (List.replicate 220500 (0 : ℚ))
    (by rw [hlen]; norm_num) (by norm_num)).2.2.2.2.2.1
  rw [hlen] at h40 h4
  exact ⟨by rw [hlen]; norm_num, by rw [h40], by rw [h4]⟩

lemma neg_one_le_clamp (x : ℚ) : -1 ≤ clamp x := le_max_left _ _

lemma clamp_le_one (x : ℚ) : clamp x ≤ 1 :=
  max_le (by norm_num) (min_le_left _ _)

lemma rtrunc_le {b : ℤ} {x : ℚ} (h : x ≤ (b : ℚ)) : rtrunc x ≤ b := by
  rw [rtrunc]
  split
  · calc Int.floor x ≤ Int.floor ((b : ℚ)) := Int.floor_le_floor h
      _ = b := Int.floor_intCast b
  · exact Int.ceil_le.mpr h

lemma le_rtrunc {a : ℤ} {x : ℚ} (h : (a : ℚ) ≤ x) : a ≤ rtrunc x := by
  rw [rtrunc]
  split
  · exact Int.le_floor.mpr h
  · calc a = Int.ceil ((a : ℚ)) := (Int.ceil_intCast a).symm
      _ ≤ Int.ceil x := Int.ceil_le_ceil h

/-- The quantized sample never exceeds 32767: the clamp bounds the float by
1 before the scale by 32767. -/
lemma quantize_le (x : ℚ) : quantize x ≤ 32767 := by
  rw [quantize]
  apply rtrunc_le
  have h := clamp_le_one x
  have : clamp x * 32767 ≤ 1 * 32767 :=
    mul_le_mul_of_nonneg_right h (by norm_num)
  push_cast
  linarith

/-- The quantized sample never goes below -32767: the clamp bounds the
float by -1 before the scale by 32767. -/
lemma le_quantize (x : ℚ) : -32767 ≤ quantize x := by
  rw [quantize]
  apply le_rtrunc
  have h := neg_one_le_clamp x
  have : (-1 : ℚ) * 32767 ≤ clamp x * 32767 :=
    mul_le_mul_of_nonneg_right h (by norm_num)
  push_cast
  linarith

/-- Reading back the two bytes written for an in-range 16-bit value
recovers the value: no twos-complement wraparound occurs. -/
lemma getI16le_i16le {v : ℤ} (h1 : -32768 ≤ v) (h2 : v ≤ 32767) :
    getI16le (i16le v) 0 = v := by
  have e : getU16le (i16le v) 0 = toU16 v % 256 + 256 * (toU16 v / 256 % 256) := rfl
  rw [getI16le, e]
  simp only [toU16]
  split <;> omega

/-- Claim C4: the encoder clamps to [-1, 1] before scaling by 32767, so an
input of 1.5 encodes to 32767 and -1.5 encodes to -32767 (one of the two
values the claim allows), never a positive value; every quantized value
stays in the signed 16-bit range, and the two bytes actually stored decode
back to the same value — nothing wraps around. -/
theorem claim_C4 :
    quantize (3 / 2) = 32767 ∧
    quantize (-(3 / 2)) = -32767 ∧
    (∀ s : ℚ, -32767 ≤ quantize s ∧ quantize s ≤ 32767) ∧
    (∀ s : ℚ, getI16le (i16le (quantize s)) 0 = quantize s) := by
  refine ⟨?_, ?_, fun s => ⟨le_quantize s, quantize_le s⟩, fun s => ?_⟩
  · rw [quantize, clamp, rtrunc,
      if_pos (by norm_num [min_def, max_def]),
      floor_q 32767 _ (by norm_num [min_def, max_def])]
  · rw [quantize, clamp, rtrunc,
      if_neg (by norm_num [min_def, max_def]),
      ceil_q (-32767) _ (by norm_num [min_def, max_def])]
  · exact getI16le_i16le (by have := le_quantize s; omega) (quantize_le s)

/-- Claim C9: every quantized 16-bit value lies in the symmetric range
[-32767, 32767]; -32768 is never produced, because the clamped float in
[-1, 1] is scaled by 0x7FFF = 32767 before truncation. -/
theorem claim_C9 (s : ℚ) :
    -32767 ≤ quantize s ∧ quantize s ≤ 32767 ∧ quantize s ≠ -32768 :=
  ⟨le_quantize s, quantize_le s, by have := le_quantize s; omega⟩

/-- Claim C7: a non-2xx response makes `handleAnalyze` throw, landing in
the `catch` block: the analysis is aborted with `isProcessing` reset to
`false`, exactly one fetch was issued (no retry), the error is surfaced to
the user as an alert message, and no classification result — partial or
otherwise — is displayed. -/
theorem claim_C7 (p0 : Bool) (buf : AudioBuffer) (resp : HttpResponse)
    (hbad : statusOk resp.status = false) :
    handleAnalyze (some ()) p0 (.decoded buf) (.ok resp) =
      ⟨.showError (analysisErrorMsg
          ("API request failed with status: " ++ toString resp.status)),
        false, 1, 1⟩ ∧
    ∀ r : ClassifierResult,
      (handleAnalyze (some ()) p0 (.decoded buf) (.ok resp)).outcome ≠
        Outcome.showResult r := by
  have h : handleAnalyze (some ()) p0 (.decoded buf) (.ok resp) =
      ⟨.showError (analysisErrorMsg
          ("API request failed with status: " ++ toString resp.status)),
        false, 1, 1⟩ := by
    rw [handleAnalyze, processAudio]
    rw [if_neg (by rw [hbad]; exact Bool.false_ne_true)]
  exact ⟨h, fun r => by rw [h]; exact fun hc => Outcome.noConfusion hc⟩

/-- Witness for C7: a concrete 500 response whose body would even parse as
a valid classification; the request is still treated as a hard failure and
no result is shown. -/
theorem claim_C7_witness :
    statusOk 500 = false ∧
    handleAnalyze (some ()) true
        (.decoded (AudioBuffer.mk 1 0 22050 [[]]))
        (.ok (HttpResponse.mk 500 (.ok (ClassifierResult.mk "bangers" 1)))) =
      ⟨.showError (analysisErrorMsg
          ("API request failed with status: " ++ toString (500 : ℕ))),
        false, 1, 1⟩ :=
  ⟨by decide,
   (claim_C7 true (AudioBuffer.mk 1 0 22050 [[]])
      (HttpResponse.mk 500 (.ok (ClassifierResult.mk "bangers" 1)))
      (by decide)).1⟩

/-- Counterexample to claim C8 as stated: both failure kinds — unparseable
input and an unhandled format — are signaled to the caller as the identical
generic error `Failed to process audio file`, so the failure does NOT
distinguish a DecodeError from an UnsupportedFormatError. -/
theorem claim_C8_counterexample :
    processAudio (.failed .notParseable) =
      processAudio (.failed .unsupportedFormat) ∧
    processAudio (.failed .notParseable) =
      Except.error "Failed to process audio file" ∧
    processAudio (.failed .unsupportedFormat) =
      Except.error "Failed to process audio file" :=
  ⟨rfl, rfl, rfl⟩

/-- Claim C8, amended: when normalization fails, a single generic error
(`Failed to process audio file`) is signaled to the caller regardless of
the failure kind — decode failure and unsupported format are not
distinguished — and every such failure is surfaced to the user without any
retry (no fetch is issued and `processAudio` runs exactly once). -/
theorem claim_C8 (k : DecodeFailure) (p0 : Bool)
    (fetchResult : Except String HttpResponse) :
    processAudio (.failed k) = Except.error "Failed to process audio file" ∧
    handleAnalyze (some ()) p0 (.failed k) fetchResult =
      ⟨.showError (analysisErrorMsg "Failed to process audio file"),
        false, 0, 1⟩ :=
  ⟨rfl, rfl⟩

/-- Claim C10: with no file selected, `handleAnalyze` returns immediately:
nothing is shown, `isProcessing` keeps its prior value, and neither a fetch
nor any audio processing happens. -/
theorem claim_C10 (p0 : Bool) (dec : DecodeOutcome)
    (fetchResult : Except String HttpResponse) :
    handleAnalyze none p0 dec fetchResult = ⟨.noAction, p0, 0, 0⟩ := rfl

end MusicReact
